import Mathlib

/-!
Verification of the film-map record-extraction and nearest-neighbor pipeline
(source: main.py).  Python strings are modelled as lists of characters,
optional values as Option, pandas DataFrames as lists of records, and the
rational numbers stand in for the double-precision coordinate and distance
values.  The external geocoding collaborator and the haversine distance
function are passed as explicit parameters to the pipeline stages that use
them (the haversine itself is modelled separately over the real numbers).
-/

namespace FilmMap

/-- Python strings, modelled as lists of characters. -/
abbrev Str := List Char

/-- One row of the pandas DataFrame produced by the pipeline.  At load time
only the name, year and location columns exist (the rest are none); the
resolver adds latitude and longitude, and the distance engine adds distance.
Absent values (None or NaN in pandas) are modelled as none. -/
structure FilmRecord where
  name : Option Str
  year : Option Str
  location : Str
  latitude : Option ℚ := none
  longitude : Option ℚ := none
  distance : Option ℚ := none
deriving DecidableEq

/-- One data row of the tab-separated source file after the 14 skipped header
lines, already split into its three columns Name (the raw title), Location
and Info, as by pandas read_csv with names=[Name, Location, Info].  Reading
the file itself is I/O and out of scope. -/
structure RawRow where
  title : Str
  location : Str
  info : Str
deriving DecidableEq

/-- Model of main.py find_year: locate the first opening parenthesis with
str.index (ValueError, hence None, when there is none) and return the slice
line[bracket+1 : bracket+5], i.e. the up-to-four characters after it. -/
def find_year (line : Str) : Option Str :=
  match line.findIdx? (fun c => c = '(') with
  | none => none
  | some bracket => some ((line.drop (bracket + 1)).take 4)

/-- Model of main.py find_name: locate the first opening parenthesis
(ValueError, hence None, when there is none), cut the line to
line[:bracket-1] (Python slice semantics: for bracket = 0 this is
line[:-1], dropping the last character), return None on the IndexError that
line[0] raises when the cut line is empty, and otherwise strip one leading
and one trailing double-quote character when both are present
(line[1:-1]). -/
def find_name (line : Str) : Option Str :=
  match line.findIdx? (fun c => c = '(') with
  | none => none
  | some bracket =>
    let l := if bracket = 0 then line.dropLast else line.take (bracket - 1)
    match l with
    | [] => none
    | _ :: _ =>
      if l.head? = some '"' ∧ l.getLast? = some '"' then
        some ((l.drop 1).dropLast)
      else
        some l

/-- The tuple of columns of the loaded DataFrame (Name, Location, Year);
pandas drop_duplicates with no subset compares exactly these. -/
def dedupKey (r : FilmRecord) : Option Str × Str × Option Str :=
  (r.name, r.location, r.year)

/-- Recursion for drop_duplicates: keep a row when its column tuple has not
been seen before (pandas drop_duplicates keeps the first occurrence; pandas
treats two absent values as equal when comparing rows, as Option equality
does here). -/
def dropDupsFrom (seen : List (Option Str × Str × Option Str)) :
    List FilmRecord → List FilmRecord
  | [] => []
  | r :: rs =>
    if dedupKey r ∈ seen then dropDupsFrom seen rs
    else r :: dropDupsFrom (dedupKey r :: seen) rs

/-- Model of pandas DataFrame.drop_duplicates (keep first occurrence). -/
def drop_duplicates (l : List FilmRecord) : List FilmRecord :=
  dropDupsFrom [] l

/-- One row of read_file before deduplication: the Year column is computed
from the raw title, then the Name column is overwritten by the extracted
name; the Info column is dropped. -/
def parse_row (row : RawRow) : FilmRecord :=
  { name := find_name row.title, year := find_year row.title,
    location := row.location }

/-- Model of main.py read_file on the already-split data rows: extract year
and name from the raw title column and drop duplicate rows. -/
def read_file (rows : List RawRow) : List FilmRecord :=
  drop_duplicates (rows.map parse_row)

/-- A successful geocoding result: the coordinate pair carried by the
location object the external collaborator returns. -/
structure GeoPoint where
  latitude : ℚ
  longitude : ℚ
deriving DecidableEq

/-- The external geocoding collaborator, modelled as a pure function from a
place string to an optional coordinate pair; none covers both the
GeocoderUnavailable exception and a no-match reply (whose None result makes
the attribute access raise AttributeError in the source). -/
abbrev Geocoder := Str → Option GeoPoint

/-- Model of main.py find_latitude: geocode the point and return the
latitude of the result, or None when the lookup fails or finds nothing. -/
def find_latitude (geocode : Geocoder) (point : Str) : Option ℚ :=
  match geocode point with
  | none => none
  | some location => some location.latitude

/-- Model of main.py find_longitude: geocode the point and return the
longitude of the result, or None when the lookup fails or finds nothing. -/
def find_longitude (geocode : Geocoder) (point : Str) : Option ℚ :=
  match geocode point with
  | none => none
  | some location => some location.longitude

/-- The column-assignment half of main.py find_coordinates: set the Latitude
and Longitude columns of one row from the geocoded Location column. -/
def assign_coordinates (geocode : Geocoder) (r : FilmRecord) : FilmRecord :=
  { r with latitude := find_latitude geocode r.location,
           longitude := find_longitude geocode r.location }

/-- Model of main.py find_coordinates: fill the Latitude and Longitude
columns from the Location column, then keep only the rows where Latitude is
not NaN and then only those where Longitude is not NaN. -/
def find_coordinates (geocode : Geocoder) (films_data : List FilmRecord) :
    List FilmRecord :=
  ((films_data.map (assign_coordinates geocode)).filter
      (fun r => r.latitude.isSome)).filter
    (fun r => r.longitude.isSome)

/-- The two-argument arctangent, as math.atan2: the angle of the point
(x, y), in the correct quadrant. -/
noncomputable def atan2 (y x : ℝ) : ℝ :=
  if 0 < x then Real.arctan (y / x)
  else if x < 0 then
    (if 0 ≤ y then Real.arctan (y / x) + Real.pi
     else Real.arctan (y / x) - Real.pi)
  else if 0 < y then Real.pi / 2
  else if y < 0 then -(Real.pi / 2)
  else 0

/-- Model of main.py find_distance over the real numbers: the haversine
great-circle distance on a sphere of radius 6371e3 meters, with degrees
converted to radians and the central angle computed through atan2, exactly
as in the source. -/
noncomputable def find_distance (lat1 lon1 lat2 lon2 : ℝ) : ℝ :=
  let radius : ℝ := 6371e3
  let radian_lat1 := lat1 * Real.pi / 180
  let radian_lat2 := lat2 * Real.pi / 180
  let delta_lat := (lat2 - lat1) * Real.pi / 180
  let delta_lon := (lon2 - lon1) * Real.pi / 180
  let haversine := Real.sin (delta_lat / 2) * Real.sin (delta_lat / 2) +
    Real.cos radian_lat1 * Real.cos radian_lat2 *
    Real.sin (delta_lon / 2) * Real.sin (delta_lon / 2)
  radius * (2 * atan2 (Real.sqrt haversine) (Real.sqrt (1 - haversine)))

/-- Model of main.py count_distance_to_point: add a Distance column holding
the distance from each row's coordinates to the user point.  The distance
function is a parameter (main passes find_distance; the haversine is
real-valued, so the pipeline is stated for an arbitrary rational-valued
distance function).  A row with an absent coordinate gets an absent
distance, as NaN coordinates propagate to a NaN distance in the source. -/
def count_distance_to_point (dist : ℚ → ℚ → ℚ → ℚ → ℚ) (lat lon : ℚ)
    (films_data : List FilmRecord) : List FilmRecord :=
  films_data.map fun x =>
    { x with distance :=
        match x.latitude, x.longitude with
        | some la, some lo => some (dist la lo lat lon)
        | _, _ => none }

/-- The sort key of the Distance column: pandas sorts NaN (absent) last in an
ascending sort, so an absent distance is the top element. -/
def distKey (r : FilmRecord) : WithTop ℚ :=
  match r.distance with
  | none => ⊤
  | some d => (d : WithTop ℚ)

/-- The boolean comparison on rows used to sort by the Distance column. -/
def distLE (a b : FilmRecord) : Bool :=
  decide (distKey a ≤ distKey b)

/-- A deterministic stand-in for pandas sort_values(by=[Distance]) in
main.py find_nearest.  The pandas call (default kind, quicksort) guarantees
only that the result is some permutation of the rows that is non-decreasing
in the Distance column — the relative order of rows with equal keys is NOT
guaranteed; is_sort_values_output below captures that contract, and
tie-order-sensitive statements are made against it.  This function picks one
concrete representative of the contract; properties proved about it that are
not invariant under reordering equal keys must not be read as properties of
the program. -/
def sort_values (films_data : List FilmRecord) : List FilmRecord :=
  films_data.mergeSort distLE

/-- Model of main.py find_nearest: sort the rows by the Distance column and
take the first 10. -/
def find_nearest (films_data : List FilmRecord) : List FilmRecord :=
  (sort_values films_data).take 10

/-- The ranking operation of the specification: populate the Distance column
from the reference point, then sort by it (count_distance_to_point followed
by the sort_values step of find_nearest in main.py). -/
def rank_by_distance (dist : ℚ → ℚ → ℚ → ℚ → ℚ) (lat lon : ℚ)
    (films_data : List FilmRecord) : List FilmRecord :=
  sort_values (count_distance_to_point dist lat lon films_data)

/-- Every column of a row except Distance; used to state that the distance
step touches nothing else. -/
def nonDistanceFields (r : FilmRecord) :
    Option Str × Option Str × Str × Option ℚ × Option ℚ :=
  (r.name, r.year, r.location, r.latitude, r.longitude)

/-- The expected name of a well-formed title: the raw name with one leading
and one trailing double-quote character removed when both are present. -/
def strip_quotes (s : Str) : Str :=
  if s.head? = some '"' ∧ s.getLast? = some '"' then (s.drop 1).dropLast
  else s

/-- A concrete distance function for instantiating the pipeline theorems. -/
def zeroDist : ℚ → ℚ → ℚ → ℚ → ℚ := fun _ _ _ _ => 0

/-- A concrete record with resolved coordinates. -/
def sampleResolved : FilmRecord :=
  { name := none, year := none, location := "USA".toList,
    latitude := some 1, longitude := some 2 }

/-- A concrete record with a populated distance. -/
def sampleDistanced : FilmRecord :=
  { name := none, year := none, location := "USA".toList,
    latitude := some 1, longitude := some 2, distance := some 3 }

/-- A concrete source row whose raw title has no opening parenthesis. -/
def sampleRow : RawRow :=
  { title := "no bracket".toList, location := "USA".toList, info := [] }

/-- The contract of the pandas sort_values(by=[Distance]) call with its
default sort kind (quicksort): the output is some permutation of the input
rows that is non-decreasing in the Distance sort key.  The relative order
of rows with equal keys is not specified by pandas for this kind (only the
mergesort and stable kinds are stable), so any such permutation is a
possible output of the program. -/
def is_sort_values_output (films_data out : List FilmRecord) : Prop :=
  List.Perm out films_data ∧
    out.Pairwise (fun a b => distKey a ≤ distKey b)

/-- A concrete resolved record named A, for exhibiting distance ties. -/
def recTieA : FilmRecord :=
  { name := some ("A".toList), year := none, location := "USA".toList,
    latitude := some 0, longitude := some 0 }

/-- A concrete resolved record named B at the same coordinates as
recTieA. -/
def recTieB : FilmRecord :=
  { name := some ("B".toList), year := none, location := "USA".toList,
    latitude := some 0, longitude := some 0 }

/-- recTieA after distance population with the zero distance function. -/
def recTieA' : FilmRecord :=
  { name := some ("A".toList), year := none, location := "USA".toList,
    latitude := some 0, longitude := some 0, distance := some 0 }

/-- recTieB after distance population with the zero distance function. -/
def recTieB' : FilmRecord :=
  { name := some ("B".toList), year := none, location := "USA".toList,
    latitude := some 0, longitude := some 0, distance := some 0 }

/-! ## Deduplication lemmas -/

theorem dedupKey_not_seen_of_mem (l : List FilmRecord) :
    ∀ seen, ∀ r ∈ dropDupsFrom seen l, dedupKey r ∉ seen := by
  induction l with
  | nil => intro seen r hr; simp [dropDupsFrom] at hr
  | cons a as ih =>
    intro seen r hr
    rw [dropDupsFrom] at hr
    split at hr
    · exact ih seen r hr
    · rcases List.mem_cons.mp hr with rfl | hr'
      · assumption
      · intro hseen
        exact ih (dedupKey a :: seen) r hr' (List.mem_cons_of_mem _ hseen)

theorem pairwise_dropDupsFrom (l : List FilmRecord) :
    ∀ seen, (dropDupsFrom seen l).Pairwise
      (fun a b => dedupKey a ≠ dedupKey b) := by
  induction l with
  | nil => intro seen; simp [dropDupsFrom]
  | cons a as ih =>
    intro seen
    rw [dropDupsFrom]
    split
    · exact ih seen
    · refine List.Pairwise.cons ?_ (ih _)
      intro b hb hk
      exact dedupKey_not_seen_of_mem as (dedupKey a :: seen) b hb
        (hk ▸ List.mem_cons_self _ _)

theorem find?_dropDupsFrom (l : List FilmRecord) :
    ∀ seen, ∀ r ∈ dropDupsFrom seen l,
      l.find? (fun a => decide (dedupKey a = dedupKey r)) = some r := by
  induction l with
  | nil => intro seen r hr; simp [dropDupsFrom] at hr
  | cons a as ih =>
    intro seen r hr
    rw [dropDupsFrom] at hr
    split at hr
    case isTrue h =>
      have hne : ¬ dedupKey a = dedupKey r := by
        intro he
        exact dedupKey_not_seen_of_mem as seen r hr (he ▸ h)
      rw [List.find?_cons_of_neg _ (by simpa using hne)]
      exact ih seen r hr
    case isFalse h =>
      rcases List.mem_cons.mp hr with rfl | hr'
      · exact List.find?_cons_of_pos _ (by simp)
      · have hnotin := dedupKey_not_seen_of_mem as (dedupKey a :: seen) r hr'
        have hne : ¬ dedupKey a = dedupKey r := fun he =>
          hnotin (he ▸ List.mem_cons_self _ _)
        rw [List.find?_cons_of_neg _ (by simpa using hne)]
        exact ih _ r hr'

theorem exists_key_dropDupsFrom (l : List FilmRecord) :
    ∀ seen, ∀ a ∈ l, dedupKey a ∈ seen ∨
      ∃ r ∈ dropDupsFrom seen l, dedupKey r = dedupKey a := by
  induction l with
  | nil => intro seen a ha; simp at ha
  | cons b bs ih =>
    intro seen a ha
    rw [dropDupsFrom]
    split
    case isTrue h =>
      rcases List.mem_cons.mp ha with rfl | ha'
      · exact Or.inl h
      · exact ih seen a ha'
    case isFalse h =>
      rcases List.mem_cons.mp ha with he | ha'
      · exact Or.inr ⟨b, List.mem_cons_self _ _, congrArg dedupKey he.symm⟩
      · rcases ih (dedupKey b :: seen) a ha' with h1 | ⟨r, hr, he⟩
        · rcases List.mem_cons.mp h1 with he | hseen
          · exact Or.inr ⟨b, List.mem_cons_self _ _, he.symm⟩
          · exact Or.inl hseen
        · exact Or.inr ⟨r, List.mem_cons_of_mem _ hr, he⟩

/-- C1 counterexample: two rows with the same extracted name and the same
location but different years are both kept by the loader, so the output
contains two records with the same (name, location) pair. -/
theorem read_file_dedup_pair_cex :
    ¬ (read_file [⟨"Film (2002)".toList, "USA".toList, []⟩,
        ⟨"Film (2003)".toList, "USA".toList, []⟩]).Pairwise
      (fun r s => (r.name, r.location) ≠ (s.name, s.location)) := by decide

/-- C1 (amended): the loader deduplicates on exact (name, location, year)
triples (all three columns of the loaded frame): the output contains no two
records with the same triple, and each output record is the first input
occurrence of its triple. -/
theorem read_file_dedup (rows : List RawRow) :
    (read_file rows).Pairwise (fun r s => dedupKey r ≠ dedupKey s) ∧
    ∀ r ∈ read_file rows,
      (rows.map parse_row).find?
        (fun a => decide (dedupKey a = dedupKey r)) = some r := by
  constructor
  · exact pairwise_dropDupsFrom (rows.map parse_row) []
  · intro r hr
    exact find?_dropDupsFrom (rows.map parse_row) [] r hr

/-- C2 counterexample: a row whose raw title has no opening parenthesis is
kept by the loader, yielding a record whose name is absent. -/
theorem read_file_absent_name_cex :
    ∃ r ∈ read_file [⟨"no bracket".toList, "USA".toList, []⟩],
      r.name = none := by decide

/-- C2 (amended): rows whose raw title yields no extractable name are NOT
dropped by the loader: every input row (including one whose name extraction
returns absent) is represented in the output by a record carrying exactly
the extracted name, the extracted year and the row's location. -/
theorem read_file_keeps_unparsed_rows (rows : List RawRow) (row : RawRow)
    (hrow : row ∈ rows) :
    ∃ r ∈ read_file rows, r.name = find_name row.title ∧
      r.year = find_year row.title ∧ r.location = row.location := by
  rcases exists_key_dropDupsFrom (rows.map parse_row) [] (parse_row row)
      (List.mem_map_of_mem _ hrow) with h | ⟨r, hr, he⟩
  · simp at h
  · refine ⟨r, hr, ?_⟩
    simp only [dedupKey, parse_row, Prod.mk.injEq] at he
    exact ⟨he.1, he.2.2, he.2.1⟩

/-- C2 witness: the amended statement evaluated on a concrete one-row
source whose title has no parenthesis. -/
theorem read_file_keeps_unparsed_rows_witness :
    sampleRow ∈ [sampleRow] ∧
    ∃ r ∈ read_file [sampleRow], r.name = find_name sampleRow.title ∧
      r.year = find_year sampleRow.title ∧ r.location = sampleRow.location :=
  ⟨by decide, read_file_keeps_unparsed_rows [sampleRow] sampleRow (by decide)⟩

/-! ## Title Parser lemmas -/

theorem findIdx?_no_bracket (s : Str) (h : '(' ∉ s) :
    s.findIdx? (fun c => c = '(') = none := by
  rw [List.findIdx?_eq_none_iff]
  intro x hx
  simp only [decide_eq_false_iff_not]
  exact fun he => h (he ▸ hx)

theorem findIdx?_wellformed (name rest : Str) (hnp : '(' ∉ name) :
    (name ++ ' ' :: '(' :: rest).findIdx? (fun c => c = '(') =
      some (name.length + 1) := by
  rw [List.findIdx?_append, findIdx?_no_bracket name hnp]
  have h2 : (' ' :: '(' :: rest).findIdx? (fun c => c = '(') = some 1 := by
    rw [List.findIdx?_cons, if_neg (by decide), List.findIdx?_succ,
      List.findIdx?_cons, if_pos (by decide)]
    rfl
  rw [h2]
  simp [Nat.add_comm]

/-- C4 counterexample: the raw title built from the name containing an
opening parenthesis and the 4-character year 2002 is of the form
Name (YYYY), yet extract_name returns absent rather than the name. -/
theorem find_name_wellformed_cex :
    "a(b (2002)".toList = "a(b".toList ++ ' ' :: '(' :: ("2002".toList ++ [')']) ∧
    "a(b".toList ≠ [] ∧ ("2002".toList).length = 4 ∧
    find_name ("a(b (2002)".toList) ≠ some ("a(b".toList) ∧
    find_name ("a(b (2002)".toList) = none := by decide

/-- C4 (amended): for every raw title of the form Name (YYYY) where the
non-empty name contains no opening parenthesis, extract_name returns the
name with its wrapping double quotes stripped when the first and last
characters are both a double quote, and extract_year returns exactly the
4-character year string. -/
theorem find_name_find_year_wellformed (name yyyy : Str) (hne : name ≠ [])
    (hnp : '(' ∉ name) (hy : yyyy.length = 4) :
    find_name (name ++ ' ' :: '(' :: (yyyy ++ [')'])) =
      some (strip_quotes name) ∧
    find_year (name ++ ' ' :: '(' :: (yyyy ++ [')'])) = some yyyy := by
  have hidx := findIdx?_wellformed name (yyyy ++ [')']) hnp
  constructor
  · cases name with
    | nil => exact absurd rfl hne
    | cons c cs =>
      unfold find_name
      rw [hidx]
      dsimp only
      rw [if_neg (by omega)]
      simp only [Nat.add_sub_cancel]
      rw [List.take_left]
      rw [strip_quotes, apply_ite some]
  · unfold find_year
    rw [hidx]
    dsimp only
    congr 1
    have hsplit : name ++ ' ' :: '(' :: (yyyy ++ [')']) =
        (name ++ [' ', '(']) ++ (yyyy ++ [')']) := by simp
    rw [hsplit, List.drop_left' (by simp), List.take_left' hy]

/-- C4 witness: the amended statement evaluated on the concrete title
Film (2002). -/
theorem find_name_find_year_wellformed_witness :
    ("Film".toList ≠ [] ∧ '(' ∉ "Film".toList ∧ ("2002".toList).length = 4) ∧
    (find_name ("Film".toList ++ ' ' :: '(' :: ("2002".toList ++ [')'])) =
        some (strip_quotes ("Film".toList)) ∧
      find_year ("Film".toList ++ ' ' :: '(' :: ("2002".toList ++ [')'])) =
        some ("2002".toList)) :=
  ⟨by decide, find_name_find_year_wellformed ("Film".toList) ("2002".toList)
    (by decide) (by decide) (by decide)⟩

/-- C5 counterexample: the title a() contains an opening parenthesis and
the substring before the first one is the non-empty string a, yet
extract_name returns absent (the Python slice excludes the character just
before the parenthesis, leaving nothing). -/
theorem find_name_none_iff_cex :
    ¬ (find_name ("a()".toList) = none ↔
        ('(' ∉ "a()".toList ∨
          ("a()".toList).takeWhile (fun c => c ≠ '(') = [])) := by decide

/-- C5 (amended): extract_name returns absent exactly when the title
contains no opening parenthesis, or the title is the single character (,
or the first opening parenthesis is the title's second character (so that
the Python slice line[:bracket-1] is empty). -/
theorem find_name_none_iff (line : Str) :
    find_name line = none ↔
      '(' ∉ line ∨ line = ['('] ∨
        (line.head? ≠ some '(' ∧ line.tail.head? = some '(') := by
  cases line with
  | nil => simp [find_name]
  | cons c cs =>
    by_cases hc : c = '('
    · subst hc
      cases cs with
      | nil => decide
      | cons d ds =>
        have hsome : find_name ('(' :: d :: ds) ≠ none := by
          unfold find_name
          rw [List.findIdx?_cons, if_pos (by decide)]
          dsimp only
          rw [if_pos rfl, List.dropLast_cons₂]
          dsimp only
          split <;> simp
        constructor
        · intro h; exact absurd h hsome
        · rintro (h | h | ⟨h1, h2⟩)
          · exact absurd (List.mem_cons_self _ _) h
          · exact absurd h (by simp)
          · exact absurd rfl h1
    · cases cs with
      | nil =>
        have h1 : find_name [c] = none := by
          unfold find_name
          rw [List.findIdx?_cons, if_neg (by simp [hc])]
          rfl
        rw [h1]
        constructor
        · intro _
          refine Or.inl ?_
          simp only [List.mem_singleton]
          exact fun he => hc he.symm
        · intro _; rfl
      | cons d ds =>
        by_cases hd : d = '('
        · subst hd
          have h1 : find_name (c :: '(' :: ds) = none := by
            unfold find_name
            rw [List.findIdx?_cons, if_neg (by simp [hc]), List.findIdx?_succ,
              List.findIdx?_cons, if_pos (by decide)]
            rfl
          rw [h1]
          constructor
          · intro _
            exact Or.inr (Or.inr ⟨by simp [hc], rfl⟩)
          · intro _; rfl
        · by_cases hmem : '(' ∈ ds
          · obtain ⟨k, hk⟩ : ∃ k, ds.findIdx? (fun x => x = '(') = some k := by
              have h1 : (ds.findIdx? (fun x => x = '(')).isSome = true := by
                rw [List.findIdx?_isSome]
                simp only [List.any_eq_true, decide_eq_true_eq]
                exact ⟨'(', hmem, rfl⟩
              exact Option.isSome_iff_exists.mp h1
            have hsome : find_name (c :: d :: ds) ≠ none := by
              unfold find_name
              rw [List.findIdx?_cons, if_neg (by simp [hc]),
                List.findIdx?_succ, List.findIdx?_cons, if_neg (by simp [hd]),
                List.findIdx?_succ, hk]
              simp only [Option.map_some']
              rw [if_neg (by omega)]
              simp only [Nat.add_sub_cancel]
              rw [List.take_succ_cons]
              dsimp only
              split <;> simp
            constructor
            · intro h; exact absurd h hsome
            · rintro (h | h | ⟨h1, h2⟩)
              · exact absurd
                  (List.mem_cons_of_mem _ (List.mem_cons_of_mem _ hmem)) h
              · exact absurd h (by simp)
              · rw [List.tail_cons, List.head?_cons, Option.some.injEq] at h2
                exact absurd h2 hd
          · have hnone : find_name (c :: d :: ds) = none := by
              unfold find_name
              rw [findIdx?_no_bracket _ (by
                simp only [List.mem_cons]
                push_neg
                exact ⟨fun he => hc he.symm, fun he => hd he.symm, hmem⟩)]
            rw [hnone]
            constructor
            · intro _
              refine Or.inl ?_
              simp only [List.mem_cons]
              push_neg
              exact ⟨fun he => hc he.symm, fun he => hd he.symm, hmem⟩
            · intro _; rfl

theorem findIdx?_eq_takeWhile_length (l : Str) (h : '(' ∈ l) :
    l.findIdx? (fun c => c = '(') =
      some ((l.takeWhile (fun c => c ≠ '(')).length) := by
  induction l with
  | nil => simp at h
  | cons c cs ih =>
    by_cases hc : c = '('
    · subst hc
      rw [List.findIdx?_cons, if_pos (by decide)]
      simp [List.takeWhile_cons]
    · have h' : '(' ∈ cs :=
        (List.mem_cons.mp h).resolve_left (fun he => hc he.symm)
      rw [List.findIdx?_cons, if_neg (by simp [hc]), List.findIdx?_succ,
        ih h', Option.map_some']
      simp [List.takeWhile_cons, hc]

theorem drop_to_dropWhile_bracket (l : Str) :
    l.drop ((l.takeWhile (fun c => c ≠ '(')).length) =
      l.dropWhile (fun c => c ≠ '(') := by
  induction l with
  | nil => rfl
  | cons c cs ih =>
    by_cases hc : c = '('
    · subst hc
      rw [List.takeWhile_cons, List.dropWhile_cons]
      simp
    · rw [List.takeWhile_cons, List.dropWhile_cons,
        if_pos (by simp [hc]), if_pos (by simp [hc])]
      simp only [List.length_cons, List.drop_succ_cons]
      exact ih

/-- C6 counterexample: a title whose first opening parenthesis is followed
by fewer than 4 characters makes extract_year return a string shorter than
4 characters. -/
theorem find_year_four_char_cex :
    '(' ∈ "a(20".toList ∧ find_year ("a(20".toList) = some ("20".toList) ∧
      ("20".toList).length ≠ 4 := by decide

/-- C6 (amended): extract_year returns absent exactly when the title
contains no opening parenthesis, and otherwise returns the up-to-4
characters immediately following the first opening parenthesis (fewer when
the title ends sooner). -/
theorem find_year_spec (line : Str) :
    (find_year line = none ↔ '(' ∉ line) ∧
    ∀ s, find_year line = some s →
      s = ((line.dropWhile (fun c => c ≠ '(')).drop 1).take 4 ∧
        s.length ≤ 4 := by
  by_cases hmem : '(' ∈ line
  · have hidx := findIdx?_eq_takeWhile_length line hmem
    constructor
    · unfold find_year
      rw [hidx]
      simp [hmem]
    · intro s hs
      unfold find_year at hs
      rw [hidx] at hs
      dsimp only at hs
      rw [Option.some.injEq] at hs
      subst hs
      constructor
      · rw [← List.drop_drop, drop_to_dropWhile_bracket]
      · exact List.length_take_le 4 _
  · have hidx := findIdx?_no_bracket line hmem
    constructor
    · unfold find_year
      rw [hidx]
      simp [hmem]
    · intro s hs
      unfold find_year at hs
      rw [hidx] at hs
      exact absurd hs (by simp)

/-! ## Distance Engine lemmas -/

theorem distLE_trans_le : ∀ a b c : FilmRecord,
    distLE a b → distLE b c → distLE a c := by
  intro a b c hab hbc
  simp only [distLE, decide_eq_true_eq] at *
  exact le_trans hab hbc

theorem distLE_total_le : ∀ a b : FilmRecord, distLE a b || distLE b a := by
  intro a b
  simp only [distLE, Bool.or_eq_true, decide_eq_true_eq]
  exact le_total _ _

theorem sorted_sort_values (l : List FilmRecord) :
    (sort_values l).Pairwise (fun a b => distKey a ≤ distKey b) :=
  (List.sorted_mergeSort distLE_trans_le distLE_total_le l).imp
    (by simp [distLE])

/-- C3 counterexample: with two distinct records at equal distance, the
list holding them in swapped order is a valid output of the by-Distance
sorting step (a permutation of the distance-populated input, non-decreasing
in the distance key), yet the two equal-distance records are not in their
original relative order — so the sort step does not keep ties in input
order. -/
theorem rank_by_distance_stable_cex :
    is_sort_values_output
      (count_distance_to_point zeroDist 0 0 [recTieA, recTieB])
      [recTieB', recTieA'] ∧
    distKey recTieA' = distKey recTieB' ∧
    [recTieB', recTieA'].filter
        (fun r => decide (distKey r = (0 : WithTop ℚ))) ≠
      (count_distance_to_point zeroDist 0 0 [recTieA, recTieB]).filter
        (fun r => decide (distKey r = (0 : WithTop ℚ))) :=
  ⟨⟨by decide, by decide⟩, by decide, by decide⟩

/-- C3 (amended): the program's ranking step — distance population followed
by the pandas by-Distance sort, whose contract (default sort kind) promises
only some by-key-sorted permutation — populates the distance of every
coordinate-resolved record and yields a permutation of the
distance-populated input (in particular of equal length) that is
non-decreasing in the distance key; the composition in the code is one such
output, and the relative order of records at equal distance is
unspecified. -/
theorem rank_by_distance_spec (dist : ℚ → ℚ → ℚ → ℚ → ℚ) (lat lon : ℚ)
    (records : List FilmRecord)
    (h : ∀ r ∈ records, r.latitude.isSome ∧ r.longitude.isSome) :
    is_sort_values_output (count_distance_to_point dist lat lon records)
      (rank_by_distance dist lat lon records) ∧
    ∀ out, is_sort_values_output
        (count_distance_to_point dist lat lon records) out →
      (∀ r ∈ out, r.distance.isSome) ∧
      out.length = records.length ∧
      List.Perm out (count_distance_to_point dist lat lon records) ∧
      out.Pairwise (fun a b => distKey a ≤ distKey b) := by
  constructor
  · exact ⟨List.mergeSort_perm _ _, sorted_sort_values _⟩
  · rintro out ⟨hperm, hsorted⟩
    refine ⟨?_, ?_, hperm, hsorted⟩
    · intro r hr
      have hr' : r ∈ count_distance_to_point dist lat lon records :=
        hperm.mem_iff.mp hr
      rw [count_distance_to_point, List.mem_map] at hr'
      obtain ⟨x, hx, rfl⟩ := hr'
      obtain ⟨hla, hlo⟩ := h x hx
      obtain ⟨la, hla'⟩ := Option.isSome_iff_exists.mp hla
      obtain ⟨lo, hlo'⟩ := Option.isSome_iff_exists.mp hlo
      simp [hla', hlo']
    · rw [hperm.length_eq, count_distance_to_point, List.length_map]

/-- C3 witness: the amended ranking statement evaluated on a concrete
one-record list with resolved coordinates. -/
theorem rank_by_distance_spec_witness :
    (∀ r ∈ [sampleResolved], r.latitude.isSome ∧ r.longitude.isSome) ∧
    (is_sort_values_output
        (count_distance_to_point zeroDist 0 0 [sampleResolved])
        (rank_by_distance zeroDist 0 0 [sampleResolved]) ∧
      ∀ out, is_sort_values_output
          (count_distance_to_point zeroDist 0 0 [sampleResolved]) out →
        (∀ r ∈ out, r.distance.isSome) ∧
        out.length = [sampleResolved].length ∧
        List.Perm out (count_distance_to_point zeroDist 0 0 [sampleResolved]) ∧
        out.Pairwise (fun a b => distKey a ≤ distKey b)) :=
  ⟨by decide, rank_by_distance_spec zeroDist 0 0 [sampleResolved] (by decide)⟩

/-- C7: on records with populated distances, find_nearest returns the 10
nearest: its length is the minimum of 10 and the input length (all records
when fewer than 10 are available), every returned record is drawn from the
input and has a populated distance, the input splits (as a multiset) into
the returned records plus the excluded ones, and every returned record's
distance key is at most that of every excluded record. -/
theorem find_nearest_spec (records : List FilmRecord)
    (h : ∀ r ∈ records, r.distance.isSome) :
    (find_nearest records).length = min 10 records.length ∧
    (∀ r ∈ find_nearest records, r ∈ records) ∧
    List.Perm records
      (find_nearest records ++ (sort_values records).drop 10) ∧
    (∀ r ∈ find_nearest records, r.distance.isSome) ∧
    (∀ a ∈ find_nearest records, ∀ b ∈ (sort_values records).drop 10,
      distKey a ≤ distKey b) := by
  have hmem : ∀ r ∈ find_nearest records, r ∈ records := by
    intro r hr
    have h1 : r ∈ sort_values records := List.mem_of_mem_take hr
    rwa [sort_values, List.mem_mergeSort] at h1
  refine ⟨?_, hmem, ?_, ?_, ?_⟩
  · rw [find_nearest, List.length_take, sort_values, List.length_mergeSort]
  · have h1 : List.Perm records (sort_values records) :=
      (List.mergeSort_perm _ _).symm
    have h2 : sort_values records =
        find_nearest records ++ (sort_values records).drop 10 :=
      (List.take_append_drop 10 _).symm
    exact h1.trans (h2 ▸ List.Perm.refl _)
  · intro r hr
    exact h r (hmem r hr)
  · intro a ha b hb
    have hsorted := sorted_sort_values records
    rw [← List.take_append_drop 10 (sort_values records),
      List.pairwise_append] at hsorted
    exact hsorted.2.2 a ha b hb

/-- C7 witness: the nearest-10 statement evaluated on a concrete one-record
list with a populated distance. -/
theorem find_nearest_spec_witness :
    (∀ r ∈ [sampleDistanced], r.distance.isSome) ∧
    ((find_nearest [sampleDistanced]).length = min 10 [sampleDistanced].length ∧
      (∀ r ∈ find_nearest [sampleDistanced], r ∈ [sampleDistanced]) ∧
      List.Perm [sampleDistanced] (find_nearest [sampleDistanced] ++
        (sort_values [sampleDistanced]).drop 10) ∧
      (∀ r ∈ find_nearest [sampleDistanced], r.distance.isSome) ∧
      (∀ a ∈ find_nearest [sampleDistanced],
        ∀ b ∈ (sort_values [sampleDistanced]).drop 10,
        distKey a ≤ distKey b)) :=
  ⟨by decide, find_nearest_spec [sampleDistanced] (by decide)⟩

/-- C10: populating the distance column changes nothing else: the output
rows carry the same name, year, location, latitude and longitude, in the
same order, and the row count is unchanged. -/
theorem count_distance_to_point_frame (dist : ℚ → ℚ → ℚ → ℚ → ℚ)
    (lat lon : ℚ) (records : List FilmRecord) :
    (count_distance_to_point dist lat lon records).map nonDistanceFields =
      records.map nonDistanceFields ∧
    (count_distance_to_point dist lat lon records).length =
      records.length := by
  constructor
  · rw [count_distance_to_point, List.map_map]
    exact List.map_congr_left (fun a _ => rfl)
  · rw [count_distance_to_point, List.length_map]

/-- C8: a record whose location lookup fails keeps absent coordinates after
the assignment step (never a fallback value), and every record surviving
find_coordinates carries exactly the coordinates its location geocoded to —
in particular no record with an absent latitude or longitude is in the
output. -/
theorem find_coordinates_spec (geocode : Geocoder)
    (records : List FilmRecord) :
    (∀ r ∈ records, geocode r.location = none →
      (assign_coordinates geocode r).latitude = none ∧
      (assign_coordinates geocode r).longitude = none) ∧
    (∀ s ∈ find_coordinates geocode records, ∃ p : GeoPoint,
      geocode s.location = some p ∧ s.latitude = some p.latitude ∧
      s.longitude = some p.longitude) := by
  constructor
  · intro r _ hg
    simp [assign_coordinates, find_latitude, find_longitude, hg]
  · intro s hs
    rw [find_coordinates] at hs
    simp only [List.mem_filter, List.mem_map] at hs
    obtain ⟨⟨⟨x, hx, rfl⟩, hlat⟩, hlon⟩ := hs
    cases hg : geocode x.location with
    | none =>
      rw [assign_coordinates] at hlat
      simp [find_latitude, hg] at hlat
    | some p =>
      exact ⟨p, by simp [assign_coordinates, find_latitude,
        find_longitude, hg]⟩

/-- C9: the haversine distance is symmetric in its two endpoints. -/
theorem find_distance_symm (lat1 lon1 lat2 lon2 : ℝ) :
    find_distance lat1 lon1 lat2 lon2 = find_distance lat2 lon2 lat1 lon1 := by
  unfold find_distance
  dsimp only
  have harg :
      Real.sin ((lat2 - lat1) * Real.pi / 180 / 2) *
          Real.sin ((lat2 - lat1) * Real.pi / 180 / 2) +
        Real.cos (lat1 * Real.pi / 180) * Real.cos (lat2 * Real.pi / 180) *
          (Real.sin ((lon2 - lon1) * Real.pi / 180 / 2) *
            Real.sin ((lon2 - lon1) * Real.pi / 180 / 2)) =
      Real.sin ((lat1 - lat2) * Real.pi / 180 / 2) *
          Real.sin ((lat1 - lat2) * Real.pi / 180 / 2) +
        Real.cos (lat2 * Real.pi / 180) * Real.cos (lat1 * Real.pi / 180) *
          (Real.sin ((lon1 - lon2) * Real.pi / 180 / 2) *
            Real.sin ((lon1 - lon2) * Real.pi / 180 / 2)) := by
    rw [show (lat1 - lat2) * Real.pi / 180 / 2 =
        -((lat2 - lat1) * Real.pi / 180 / 2) from by ring,
      show (lon1 - lon2) * Real.pi / 180 / 2 =
        -((lon2 - lon1) * Real.pi / 180 / 2) from by ring,
      Real.sin_neg, Real.sin_neg]
    ring
  rw [show Real.sin ((lat2 - lat1) * Real.pi / 180 / 2) *
        Real.sin ((lat2 - lat1) * Real.pi / 180 / 2) +
      Real.cos (lat1 * Real.pi / 180) * Real.cos (lat2 * Real.pi / 180) *
        Real.sin ((lon2 - lon1) * Real.pi / 180 / 2) *
        Real.sin ((lon2 - lon1) * Real.pi / 180 / 2) =
      Real.sin ((lat2 - lat1) * Real.pi / 180 / 2) *
        Real.sin ((lat2 - lat1) * Real.pi / 180 / 2) +
      Real.cos (lat1 * Real.pi / 180) * Real.cos (lat2 * Real.pi / 180) *
        (Real.sin ((lon2 - lon1) * Real.pi / 180 / 2) *
          Real.sin ((lon2 - lon1) * Real.pi / 180 / 2)) from by ring,
    harg]
  rw [show Real.sin ((lat1 - lat2) * Real.pi / 180 / 2) *
        Real.sin ((lat1 - lat2) * Real.pi / 180 / 2) +
      Real.cos (lat2 * Real.pi / 180) * Real.cos (lat1 * Real.pi / 180) *
        (Real.sin ((lon1 - lon2) * Real.pi / 180 / 2) *
          Real.sin ((lon1 - lon2) * Real.pi / 180 / 2)) =
      Real.sin ((lat1 - lat2) * Real.pi / 180 / 2) *
        Real.sin ((lat1 - lat2) * Real.pi / 180 / 2) +
      Real.cos (lat2 * Real.pi / 180) * Real.cos (lat1 * Real.pi / 180) *
        Real.sin ((lon1 - lon2) * Real.pi / 180 / 2) *
        Real.sin ((lon1 - lon2) * Real.pi / 180 / 2) from by ring]

end FilmMap
